import Mathlib

/-!
Verification development for the CSES web-scraper pipeline
(`src/web_scaper.py`).  The Python source is shallowly embedded: pure
data manipulation becomes Lean functions, and every interaction with the
outside world (the headless browser, the environment, the filesystem)
is driven by an explicit world record whose fields say how each external
step would behave (succeed with a value, or raise with a message).
-/

namespace CsesScraper

/-! ## String helpers

Python's `in` operator on strings is substring containment
(`"Login" in driver.title`, `'full' in class_name`).  We model it over
character lists. -/

/-- `charsPrefix p l` : `p` is a prefix of `l` (Python `str.startswith`
on the underlying characters). -/
def charsPrefix : List Char → List Char → Bool
  | [], _ => true
  | _ :: _, [] => false
  | a :: asx, b :: bs => a == b && charsPrefix asx bs

/-- `charsContains p l` : `p` occurs as a contiguous substring of `l`. -/
def charsContains (p : List Char) : List Char → Bool
  | [] => p.isEmpty
  | b :: bs => charsPrefix p (b :: bs) || charsContains p bs

/-- Python `pat in s` : substring containment. -/
def strContains (s pat : String) : Bool :=
  charsContains pat.data s.data

/-! ## Data model (spec section 3)

`ProblemRecord` is the dict built at `web_scaper.py:200-205`;
`ProblemSet` is the pair of ordered sequences accumulated by the
extractor.  Python's `section` key is spelled `sectionName` because
`section` is a Lean keyword. -/

structure ProblemRecord where
  name : String
  link : String
  sectionName : String
  solved : Bool
deriving DecidableEq

structure ProblemSet where
  solved : List ProblemRecord
  unsolved : List ProblemRecord
deriving DecidableEq

/-- Value of `stats["sections"][section]` (`web_scaper.py:289`). -/
structure SectionStats where
  solved : Nat
  total : Nat
deriving DecidableEq

/-- The `stats["sections"]` dict: an insertion-ordered association list,
as Python dicts are. -/
abbrev SectionMap := List (String × SectionStats)

/-- Python `stats["sections"][section]` read (first matching key). -/
def lookupSec : SectionMap → String → Option SectionStats
  | [], _ => none
  | kv :: rest, k => if kv.1 = k then some kv.2 else lookupSec rest k

/-- First pass body (`web_scaper.py:286-290`): insert `{"solved": 0,
"total": 0}` if the section key is absent (at the end, as dict insertion
does), then `["solved"] += 1`. -/
def bumpSolved : SectionMap → String → SectionMap
  | [], k => [(k, ⟨1, 0⟩)]
  | kv :: rest, k =>
      if kv.1 = k then (kv.1, ⟨kv.2.solved + 1, kv.2.total⟩) :: rest
      else kv :: bumpSolved rest k

/-- Second pass body (`web_scaper.py:292-296`): insert-if-absent then
`["total"] += 1`. -/
def bumpTotal : SectionMap → String → SectionMap
  | [], k => [(k, ⟨0, 1⟩)]
  | kv :: rest, k =>
      if kv.1 = k then (kv.1, ⟨kv.2.solved, kv.2.total + 1⟩) :: rest
      else kv :: bumpTotal rest k

/-- `for problem in problems_data["solved"]: ... ["solved"] += 1`. -/
def passSolved (recs : List ProblemRecord) (m : SectionMap) : SectionMap :=
  recs.foldl (fun acc r => bumpSolved acc r.sectionName) m

/-- `for problem in problems_data["solved"] + problems_data["unsolved"]:
... ["total"] += 1`. -/
def passTotal (recs : List ProblemRecord) (m : SectionMap) : SectionMap :=
  recs.foldl (fun acc r => bumpTotal acc r.sectionName) m

/-- The section-wise stats computed at `web_scaper.py:286-296`: first
pass over `solved` bumping `solved`, second pass over
`solved + unsolved` bumping `total`. -/
def mkSections (ps : ProblemSet) : SectionMap :=
  passTotal (ps.solved ++ ps.unsolved) (passSolved ps.solved [])

/-- The `stats` dict built at `web_scaper.py:276-296`. -/
structure UserStats where
  username : String
  timestamp : String
  solved_count : Nat
  total_count : Nat
  last_updated : String
  sections : SectionMap
deriving DecidableEq

/-- Stats aggregation (`web_scaper.py:276-296`): counts come from the
extractor's `total_solved` / `total_problems` fields
(`web_scaper.py:226-227`), which are the lengths of the two lists. -/
def mkStats (username timestamp lastUpdated : String) (ps : ProblemSet) :
    UserStats :=
  { username := username
    timestamp := timestamp
    solved_count := ps.solved.length
    total_count := ps.solved.length + ps.unsolved.length
    last_updated := lastUpdated
    sections := mkSections ps }

/-- Modelled from the spec (claim C1's wording, spec section 4.4): a
first pass over `solved` that increments the section's `solved` AND
`total` counters, before the usual second pass over
`solved ++ unsolved` increments `total` again.  This is NOT the code's
first pass; it exists to be compared with `mkSections`. -/
def bumpBothSpecC1 : SectionMap → String → SectionMap
  | [], k => [(k, ⟨1, 1⟩)]
  | kv :: rest, k =>
      if kv.1 = k then (kv.1, ⟨kv.2.solved + 1, kv.2.total + 1⟩) :: rest
      else kv :: bumpBothSpecC1 rest k

/-- Modelled from the spec (claim C1's wording): the solved pass that
bumps both counters. -/
def passBothSpecC1 (recs : List ProblemRecord) (m : SectionMap) :
    SectionMap :=
  recs.foldl (fun acc r => bumpBothSpecC1 acc r.sectionName) m

/-- Modelled from the spec (claim C1's wording): the two-pass update in
which the solved pass bumps both counters. -/
def mkSectionsSpecC1 (ps : ProblemSet) : SectionMap :=
  passTotal (ps.solved ++ ps.unsolved) (passBothSpecC1 ps.solved [])

/-! ## Observation functions for the section map -/

/-- The `solved` counter stored for key `k` (0 when the key is absent,
as it is before any increment touches it). -/
def solvedAt (m : SectionMap) (k : String) : Nat :=
  match lookupSec m k with
  | some v => v.solved
  | none => 0

/-- The `total` counter stored for key `k` (0 when the key is absent). -/
def totalAt (m : SectionMap) (k : String) : Nat :=
  match lookupSec m k with
  | some v => v.total
  | none => 0

/-- Sum of all per-section `solved` counters. -/
def sumSolved (m : SectionMap) : Nat :=
  (m.map fun kv => kv.2.solved).sum

/-- Sum of all per-section `total` counters. -/
def sumTotal (m : SectionMap) : Nat :=
  (m.map fun kv => kv.2.total).sum

/-- Number of records in `l` whose section is `k`. -/
def countSec : List ProblemRecord → String → Nat
  | [], _ => 0
  | r :: l, k => (if r.sectionName = k then 1 else 0) + countSec l k

/-! ## Login Handshake (`login_to_cses`, `web_scaper.py:142-169`)

Each browser interaction either succeeds or raises; the world record
says which.  The whole body sits in one `try`, so any raise jumps to the
`except` returning `(False, "Login error: ...")`. -/

structure LoginWorld where
  /-- `driver.get("https://cses.fi/login")` raised, with this message. -/
  navExn : Option String
  /-- locating / clearing / typing into the username field raised. -/
  userFieldExn : Option String
  /-- locating / clearing / typing into the password field raised. -/
  passFieldExn : Option String
  /-- locating or clicking the submit control raised. -/
  submitExn : Option String
  /-- `driver.title` after the submit click. -/
  title : String
deriving DecidableEq

/-- `login_to_cses(driver, wait, username, password)`: the credentials
are typed into the page but do not otherwise steer the control flow, so
they are carried only for shape. -/
def login_to_cses (w : LoginWorld) (_username _password : String) :
    Bool × String :=
  match w.navExn with
  | some e => (false, "Login error: " ++ e)
  | none =>
    match w.userFieldExn with
    | some e => (false, "Login error: " ++ e)
    | none =>
      match w.passFieldExn with
      | some e => (false, "Login error: " ++ e)
      | none =>
        match w.submitExn with
        | some e => (false, "Login error: " ++ e)
        | none =>
          if strContains w.title "Login" then
            (false, "Login failed. Please check credentials.")
          else (true, "Login successful")

/-! ## Problem Extractor (`scrape_problem_data`, `web_scaper.py:171-230`)

The rendered page is a list of task-list containers; each container has
a heading (whose read may raise — the per-section `try`) and a list of
problem entries (each of whose reads may raise — the per-entry `try`). -/

/-- What the per-entry DOM reads yield when none of them raises:
anchor text, anchor `href`, and the entry's class-attribute tokens
(`problem.get_attribute("class").split()`). -/
structure EntryInfo where
  name : String
  href : String
  classes : List String
deriving DecidableEq

/-- Outcome of a DOM read: the value, or the exception message it
raised with. -/
inductive DomRead (α : Type) where
  | ok (a : α)
  | raised (msg : String)
deriving DecidableEq

/-- One problem entry: either its DOM reads succeed or one raises. -/
abbrev EntryDom := DomRead EntryInfo

/-- One task-list container: heading read (or section-level raise) plus
its problem entries. -/
structure SectionDom where
  heading : DomRead String
  entries : List EntryDom
deriving DecidableEq

/-- A rendered problem-list page.  `navExn` covers `driver.get`, the
initial `wait.until` for a task list, and `find_elements` raising. -/
structure Page where
  navExn : Option String
  taskLists : List SectionDom
deriving DecidableEq

/-- Inner loop body (`web_scaper.py:190-214`): build the record and
append it to `solved_problems` or `unsolved_problems`; a raise skips
just this entry (`except ... continue`). -/
def entryStep (secName : String)
    (acc : List ProblemRecord × List ProblemRecord) (e : EntryDom) :
    List ProblemRecord × List ProblemRecord :=
  match e with
  | .raised _ => acc
  | .ok info =>
      let isSolved := info.classes.any fun c => strContains c "full"
      let pr : ProblemRecord :=
        ⟨info.name, info.href, secName, isSolved⟩
      if isSolved then (acc.1 ++ [pr], acc.2) else (acc.1, acc.2 ++ [pr])

/-- Outer loop body (`web_scaper.py:185-218`): read the section heading,
then process each entry; a section-level raise skips the whole section
(`except ... continue`). -/
def sectionStep (acc : List ProblemRecord × List ProblemRecord)
    (s : SectionDom) : List ProblemRecord × List ProblemRecord :=
  match s.heading with
  | .raised _ => acc
  | .ok secName => s.entries.foldl (entryStep secName) acc

/-- The two accumulated sequences after the full double loop. -/
def extractLoop (sections : List SectionDom) :
    List ProblemRecord × List ProblemRecord :=
  sections.foldl sectionStep ([], [])

/-- Result of `scrape_problem_data`: `(True, data)` or
`(False, message)`. -/
inductive ExtractResult where
  | okData (solved unsolved : List ProblemRecord)
  | fail (msg : String)
deriving DecidableEq

/-- `scrape_problem_data(driver, wait)` (`web_scaper.py:171-230`):
navigate, run the double loop, and reject a wholly empty result
(`web_scaper.py:220-221`). -/
def scrape_problem_data (p : Page) : ExtractResult :=
  match p.navExn with
  | some e => .fail ("Scraping error: " ++ e)
  | none =>
    let su := extractLoop p.taskLists
    if su.1.isEmpty && su.2.isEmpty then .fail "No problems found on the page"
    else .okData su.1 su.2

/-! ## The scrape route (`scrape`, `web_scaper.py:232-318`)

The route body is one `try` whose `except` returns a 500 and whose
`finally` quits the driver when `driver` is not `None`.  The world
record supplies the environment, the outcome of each externally fallible
step, and the two timestamp strings. -/

/-- Python truthiness of `os.getenv(...)`: `None` and `""` are falsy
(`if not username or not password`). -/
def truthy : Option String → Bool
  | none => false
  | some s => !s.isEmpty

/-- `f'CF_USERNAME_{user_number}'`. -/
def usernameKey (n : Nat) : String := "CF_USERNAME_" ++ toString n

/-- `f'CF_PASSWORD_{user_number}'`. -/
def passwordKey (n : Nat) : String := "CF_PASSWORD_" ++ toString n

/-- Everything external the route touches. -/
structure World where
  /-- `os.getenv`. -/
  env : String → Option String
  /-- `setup_driver()` raised with this message (e.g. no browser
  binary); `none` means a session was opened. -/
  setupExn : Option String
  /-- `ensure_user_directory(username)` raised (filesystem fault). -/
  mkdirExn : Option String
  /-- behaviour of the login page, driving `login_to_cses`. -/
  login : LoginWorld
  /-- behaviour of the problem-list page, driving
  `scrape_problem_data`. -/
  page : Page
  /-- writing `solved_<timestamp>.json` raised. -/
  writeSolvedExn : Option String
  /-- writing `unsolved_<timestamp>.json` raised. -/
  writeUnsolvedExn : Option String
  /-- writing `stats.json` raised. -/
  writeStatsExn : Option String
  /-- `datetime.now().strftime("%Y%m%d_%H%M%S")`. -/
  timestamp : String
  /-- `datetime.now().strftime("%Y-%m-%d %H:%M:%S")`. -/
  lastUpdated : String

/-- Externally visible side effects of one `scrape` request. -/
structure Effects where
  sessionOpened : Bool
  dirCreated : Bool
  solvedWritten : Bool
  unsolvedWritten : Bool
  statsWritten : Option UserStats
  driverQuit : Bool
deriving DecidableEq

def noEffects : Effects := ⟨false, false, false, false, none, false⟩

/-- Body of the HTTP response: an error message, or the success payload
(`web_scaper.py:302-312`). -/
inductive RouteBody where
  | errBody (msg : String)
  | successBody (username : String) (solved_count total_problems : Nat)
deriving DecidableEq

/-- The `try` block of `scrape` (`web_scaper.py:235-315`, the `except`
clause included): status code, body, and effects so far.  The effect
records are written out in full at each exit so that the six exit paths
read off directly: `⟨sessionOpened, dirCreated, solvedWritten,
unsolvedWritten, statsWritten, driverQuit⟩`. -/
def scrapeBody (w : World) (n : Nat) : (Nat × RouteBody) × Effects :=
  match w.setupExn with
  | some e => ((500, .errBody e), noEffects)
  | none =>
    if !truthy (w.env (usernameKey n)) || !truthy (w.env (passwordKey n)) then
      ((404, .errBody ("User " ++ toString n ++ " credentials not found")),
        ⟨true, false, false, false, none, false⟩)
    else
      match w.mkdirExn with
      | some e =>
        ((500, .errBody e), ⟨true, false, false, false, none, false⟩)
      | none =>
        if !(login_to_cses w.login ((w.env (usernameKey n)).getD "")
            ((w.env (passwordKey n)).getD "")).1 then
          ((401, .errBody (login_to_cses w.login
              ((w.env (usernameKey n)).getD "")
              ((w.env (passwordKey n)).getD "")).2),
            ⟨true, true, false, false, none, false⟩)
        else
          match scrape_problem_data w.page with
          | .fail m =>
            ((500, .errBody m), ⟨true, true, false, false, none, false⟩)
          | .okData solved unsolved =>
            match w.writeSolvedExn with
            | some e =>
              ((500, .errBody e), ⟨true, true, false, false, none, false⟩)
            | none =>
              match w.writeUnsolvedExn with
              | some e =>
                ((500, .errBody e), ⟨true, true, true, false, none, false⟩)
              | none =>
                match w.writeStatsExn with
                | some e =>
                  ((500, .errBody e), ⟨true, true, true, true, none, false⟩)
                | none =>
                  ((200, .successBody ((w.env (usernameKey n)).getD "")
                      solved.length (solved.length + unsolved.length)),
                    ⟨true, true, true, true,
                      some (mkStats ((w.env (usernameKey n)).getD "")
                        w.timestamp w.lastUpdated ⟨solved, unsolved⟩),
                      false⟩)

/-- The `finally` clause (`web_scaper.py:316-318`): `if driver:
driver.quit()` — the driver variable is non-`None` exactly when
`setup_driver()` returned, i.e. when a session was opened. -/
def finallyQuit (r : (Nat × RouteBody) × Effects) :
    (Nat × RouteBody) × Effects :=
  (r.1, if r.2.sessionOpened then { r.2 with driverQuit := true } else r.2)

/-- The full `scrape` route: `try` body then `finally`. -/
def scrape (w : World) (n : Nat) : (Nat × RouteBody) × Effects :=
  finallyQuit (scrapeBody w n)

/-! ## Leaderboard Reader (`leaderboard`, `web_scaper.py:320-343`)

The directory enumeration yields entries in discovery order; each entry
that is a directory and holds a parseable `stats.json` contributes one
leaderboard row.  `progress` is `solved_count / total_count * 100`
(modelled in `ℚ`); Python raises `ZeroDivisionError` when
`total_count == 0`, which escapes the loop and fails the whole route. -/

/-- One entry of `BASE_DATA_DIR.iterdir()`. -/
structure DirEntry where
  isDir : Bool
  /-- the parsed `stats.json`, when the file exists. -/
  statsFile : Option UserStats
deriving DecidableEq

/-- A stats dict with its `progress` key added
(`web_scaper.py:330`). -/
structure LEntry where
  stats : UserStats
  progress : ℚ
deriving DecidableEq

/-- The collection loop (`web_scaper.py:324-331`): skip non-directories
and directories without `stats.json`; computing `progress` divides by
`total_count` with no guard, so a zero raises out of the whole route. -/
def readEntries : List DirEntry → Except String (List LEntry)
  | [] => .ok []
  | d :: ds =>
    if d.isDir then
      match d.statsFile with
      | none => readEntries ds
      | some st =>
        if st.total_count = 0 then .error "division by zero"
        else
          match readEntries ds with
          | .ok es =>
              .ok (⟨st, (st.solved_count : ℚ) / (st.total_count : ℚ) * 100⟩
                :: es)
          | .error e => .error e
    else readEntries ds

/-- The sort key direction: `users_data.sort(key=lambda x:
x['solved_count'], reverse=True)` orders by descending `solved_count`;
`lbLE a b` says `a` may come before `b`. -/
def lbLE (a b : LEntry) : Prop :=
  b.stats.solved_count ≤ a.stats.solved_count

instance : DecidableRel lbLE :=
  fun a b => Nat.decLe b.stats.solved_count a.stats.solved_count

instance : IsTotal LEntry lbLE :=
  ⟨fun a b => (Nat.le_total b.stats.solved_count a.stats.solved_count).imp
    (fun h => h) (fun h => h)⟩

instance : IsTrans LEntry lbLE :=
  ⟨fun _ _ _ h1 h2 => Nat.le_trans h2 h1⟩

/-- The `leaderboard` route up to rendering: collect rows in discovery
order, then stable-sort descending by `solved_count` (Python's
`list.sort` is stable, also with `reverse=True`). -/
def leaderboard (ds : List DirEntry) : Except String (List LEntry) :=
  match readEntries ds with
  | .ok es => .ok (List.insertionSort lbLE es)
  | .error e => .error e

/-! ## Concrete inputs used by witnesses and counterexamples -/

/-- Spec Scenario 1: one section, `solved=[A,B]`, `unsolved=[C]`. -/
def psScenario1 : ProblemSet :=
  ⟨[⟨"A", "https://cses.fi/task/1", "Intro", true⟩,
    ⟨"B", "https://cses.fi/task/2", "Intro", true⟩],
   [⟨"C", "https://cses.fi/task/3", "Intro", false⟩]⟩

/-- Spec Scenario 3: section `"Graphs"` appears only in `unsolved`. -/
def psScenario3 : ProblemSet :=
  ⟨[⟨"A", "https://cses.fi/task/1", "Intro", true⟩],
   [⟨"D", "https://cses.fi/task/4", "Graphs", false⟩]⟩

/-- A single solved record in section `"Intro"`. -/
def psOneSolved : ProblemSet :=
  ⟨[⟨"A", "https://cses.fi/task/1", "Intro", true⟩], []⟩

/-- A login page whose interactions all succeed and whose post-submit
title no longer mentions the login page. -/
def loginOkWorld : LoginWorld := ⟨none, none, none, none, "CSES Problem Set"⟩

/-- A problem-list page that renders but has no task lists. -/
def emptyPage : Page := ⟨none, []⟩

/-- A page with one section holding one solved problem (its class list
contains a token containing `full`). -/
def onePage : Page :=
  ⟨none, [⟨.ok "Introductory Problems",
    [.ok ⟨"Weird Algorithm", "https://cses.fi/problemset/task/1068",
      ["task", "full"]⟩]⟩]⟩

/-- Environment holding credentials for user index 1 only. -/
def envUser1 : String → Option String := fun k =>
  if k = "CF_USERNAME_1" then some "alice"
  else if k = "CF_PASSWORD_1" then some "hunter2" else none

/-- World in which the environment has no credentials at all; every
other external step would succeed. -/
def wMissingCreds : World :=
  { env := fun _ => none
    setupExn := none
    mkdirExn := none
    login := loginOkWorld
    page := emptyPage
    writeSolvedExn := none
    writeUnsolvedExn := none
    writeStatsExn := none
    timestamp := "20250101_000000"
    lastUpdated := "2025-01-01 00:00:00" }

/-- World with credentials and a working login, but an empty
problem-list page. -/
def wEmptyExtraction : World := { wMissingCreds with env := envUser1 }

/-- World in which every step succeeds and one problem is extracted. -/
def wSuccess : World := { wEmptyExtraction with page := onePage }

/-- A stored `stats.json` with only the fields the leaderboard reads. -/
def storedStats (u : String) (sc tc : Nat) : UserStats :=
  ⟨u, "20250101_000000", sc, tc, "2025-01-01 00:00:00", []⟩

/-- A user directory holding the given stored stats. -/
def dirOf (u : String) (sc tc : Nat) : DirEntry :=
  ⟨true, some (storedStats u sc tc)⟩

/-- A leaderboard row as `readEntries` builds it. -/
def lentryOf (u : String) (sc tc : Nat) : LEntry :=
  ⟨storedStats u sc tc, (sc : ℚ) / (tc : ℚ) * 100⟩

/-- Spec Scenario 4: stored solved counts 5, 9, 9 in discovery order. -/
def ds599 : List DirEntry :=
  [dirOf "u5" 5 10, dirOf "u9a" 9 10, dirOf "u9b" 9 10]

/-- The rows collected from `ds599` in discovery order. -/
def es599 : List LEntry :=
  [lentryOf "u5" 5 10, lentryOf "u9a" 9 10, lentryOf "u9b" 9 10]

/-- A hand-written stats file with `total_count = 0`. -/
def zeroDir : DirEntry := ⟨true, some (storedStats "handmade" 0 0)⟩

/-! # Lemmas

## The section map under single increments -/

theorem solvedAt_bumpSolved (m : SectionMap) (j k : String) :
    solvedAt (bumpSolved m j) k =
      if j = k then solvedAt m k + 1 else solvedAt m k := by
  induction m with
  | nil =>
    by_cases h : j = k <;> simp [bumpSolved, solvedAt, lookupSec, h]
  | cons kv rest ih =>
    by_cases h1 : kv.1 = j
    · subst h1
      by_cases h2 : kv.1 = k <;>
        simp [bumpSolved, solvedAt, lookupSec, h2]
    · by_cases h2 : kv.1 = k
      · subst h2
        have hjk : ¬ j = kv.1 := fun h => h1 h.symm
        simp [bumpSolved, solvedAt, lookupSec, h1, hjk]
      · simpa [bumpSolved, solvedAt, lookupSec, h1, h2] using ih

theorem totalAt_bumpSolved (m : SectionMap) (j k : String) :
    totalAt (bumpSolved m j) k = totalAt m k := by
  induction m with
  | nil =>
    by_cases h : j = k <;> simp [bumpSolved, totalAt, lookupSec, h]
  | cons kv rest ih =>
    by_cases h1 : kv.1 = j
    · subst h1
      by_cases h2 : kv.1 = k <;>
        simp [bumpSolved, totalAt, lookupSec, h2]
    · by_cases h2 : kv.1 = k
      · subst h2
        simp [bumpSolved, totalAt, lookupSec, h1]
      · simpa [bumpSolved, totalAt, lookupSec, h1, h2] using ih

theorem solvedAt_bumpTotal (m : SectionMap) (j k : String) :
    solvedAt (bumpTotal m j) k = solvedAt m k := by
  induction m with
  | nil =>
    by_cases h : j = k <;> simp [bumpTotal, solvedAt, lookupSec, h]
  | cons kv rest ih =>
    by_cases h1 : kv.1 = j
    · subst h1
      by_cases h2 : kv.1 = k <;>
        simp [bumpTotal, solvedAt, lookupSec, h2]
    · by_cases h2 : kv.1 = k
      · subst h2
        simp [bumpTotal, solvedAt, lookupSec, h1]
      · simpa [bumpTotal, solvedAt, lookupSec, h1, h2] using ih

theorem totalAt_bumpTotal (m : SectionMap) (j k : String) :
    totalAt (bumpTotal m j) k =
      if j = k then totalAt m k + 1 else totalAt m k := by
  induction m with
  | nil =>
    by_cases h : j = k <;> simp [bumpTotal, totalAt, lookupSec, h]
  | cons kv rest ih =>
    by_cases h1 : kv.1 = j
    · subst h1
      by_cases h2 : kv.1 = k <;>
        simp [bumpTotal, totalAt, lookupSec, h2]
    · by_cases h2 : kv.1 = k
      · subst h2
        have hjk : ¬ j = kv.1 := fun h => h1 h.symm
        simp [bumpTotal, totalAt, lookupSec, h1, hjk]
      · simpa [bumpTotal, totalAt, lookupSec, h1, h2] using ih

theorem solvedAt_bumpBothSpecC1 (m : SectionMap) (j k : String) :
    solvedAt (bumpBothSpecC1 m j) k =
      if j = k then solvedAt m k + 1 else solvedAt m k := by
  induction m with
  | nil =>
    by_cases h : j = k <;> simp [bumpBothSpecC1, solvedAt, lookupSec, h]
  | cons kv rest ih =>
    by_cases h1 : kv.1 = j
    · subst h1
      by_cases h2 : kv.1 = k <;>
        simp [bumpBothSpecC1, solvedAt, lookupSec, h2]
    · by_cases h2 : kv.1 = k
      · subst h2
        have hjk : ¬ j = kv.1 := fun h => h1 h.symm
        simp [bumpBothSpecC1, solvedAt, lookupSec, h1, hjk]
      · simpa [bumpBothSpecC1, solvedAt, lookupSec, h1, h2] using ih

theorem totalAt_bumpBothSpecC1 (m : SectionMap) (j k : String) :
    totalAt (bumpBothSpecC1 m j) k =
      if j = k then totalAt m k + 1 else totalAt m k := by
  induction m with
  | nil =>
    by_cases h : j = k <;> simp [bumpBothSpecC1, totalAt, lookupSec, h]
  | cons kv rest ih =>
    by_cases h1 : kv.1 = j
    · subst h1
      by_cases h2 : kv.1 = k <;>
        simp [bumpBothSpecC1, totalAt, lookupSec, h2]
    · by_cases h2 : kv.1 = k
      · subst h2
        have hjk : ¬ j = kv.1 := fun h => h1 h.symm
        simp [bumpBothSpecC1, totalAt, lookupSec, h1, hjk]
      · simpa [bumpBothSpecC1, totalAt, lookupSec, h1, h2] using ih

/-! ## The section map under the two passes -/

theorem solvedAt_passSolved (l : List ProblemRecord) (m : SectionMap)
    (k : String) :
    solvedAt (passSolved l m) k = solvedAt m k + countSec l k := by
  induction l generalizing m with
  | nil => simp [passSolved, countSec]
  | cons r l ih =>
    simp only [passSolved, List.foldl_cons] at ih ⊢
    rw [ih, solvedAt_bumpSolved]
    by_cases h : r.sectionName = k <;> simp [countSec, h] <;> omega

theorem totalAt_passSolved (l : List ProblemRecord) (m : SectionMap)
    (k : String) :
    totalAt (passSolved l m) k = totalAt m k := by
  induction l generalizing m with
  | nil => simp [passSolved]
  | cons r l ih =>
    simp only [passSolved, List.foldl_cons] at ih ⊢
    rw [ih, totalAt_bumpSolved]

theorem solvedAt_passTotal (l : List ProblemRecord) (m : SectionMap)
    (k : String) :
    solvedAt (passTotal l m) k = solvedAt m k := by
  induction l generalizing m with
  | nil => simp [passTotal]
  | cons r l ih =>
    simp only [passTotal, List.foldl_cons] at ih ⊢
    rw [ih, solvedAt_bumpTotal]

theorem totalAt_passTotal (l : List ProblemRecord) (m : SectionMap)
    (k : String) :
    totalAt (passTotal l m) k = totalAt m k + countSec l k := by
  induction l generalizing m with
  | nil => simp [passTotal, countSec]
  | cons r l ih =>
    simp only [passTotal, List.foldl_cons] at ih ⊢
    rw [ih, totalAt_bumpTotal]
    by_cases h : r.sectionName = k <;> simp [countSec, h] <;> omega

theorem solvedAt_passBothSpecC1 (l : List ProblemRecord) (m : SectionMap)
    (k : String) :
    solvedAt (passBothSpecC1 l m) k = solvedAt m k + countSec l k := by
  induction l generalizing m with
  | nil => simp [passBothSpecC1, countSec]
  | cons r l ih =>
    simp only [passBothSpecC1, List.foldl_cons] at ih ⊢
    rw [ih, solvedAt_bumpBothSpecC1]
    by_cases h : r.sectionName = k <;> simp [countSec, h] <;> omega

theorem totalAt_passBothSpecC1 (l : List ProblemRecord) (m : SectionMap)
    (k : String) :
    totalAt (passBothSpecC1 l m) k = totalAt m k + countSec l k := by
  induction l generalizing m with
  | nil => simp [passBothSpecC1, countSec]
  | cons r l ih =>
    simp only [passBothSpecC1, List.foldl_cons] at ih ⊢
    rw [ih, totalAt_bumpBothSpecC1]
    by_cases h : r.sectionName = k <;> simp [countSec, h] <;> omega

theorem countSec_append (a b : List ProblemRecord) (k : String) :
    countSec (a ++ b) k = countSec a k + countSec b k := by
  induction a with
  | nil => simp [countSec]
  | cons r a ih => simp [countSec, ih]; omega

theorem solvedAt_mkSections (ps : ProblemSet) (k : String) :
    solvedAt (mkSections ps) k = countSec ps.solved k := by
  unfold mkSections
  rw [solvedAt_passTotal, solvedAt_passSolved]
  simp [solvedAt, lookupSec]

theorem totalAt_mkSections (ps : ProblemSet) (k : String) :
    totalAt (mkSections ps) k =
      countSec ps.solved k + countSec ps.unsolved k := by
  unfold mkSections
  rw [totalAt_passTotal, totalAt_passSolved, countSec_append]
  simp [totalAt, lookupSec]

theorem totalAt_mkSectionsSpecC1 (ps : ProblemSet) (k : String) :
    totalAt (mkSectionsSpecC1 ps) k =
      2 * countSec ps.solved k + countSec ps.unsolved k := by
  unfold mkSectionsSpecC1
  rw [totalAt_passTotal, totalAt_passBothSpecC1, countSec_append]
  simp [totalAt, lookupSec]
  omega

/-! ## Counter sums -/

theorem sumSolved_bumpSolved (m : SectionMap) (j : String) :
    sumSolved (bumpSolved m j) = sumSolved m + 1 := by
  induction m with
  | nil => simp [bumpSolved, sumSolved]
  | cons kv rest ih =>
    by_cases h : kv.1 = j <;> simp [bumpSolved, sumSolved, h] <;>
      simp [sumSolved] at ih <;> omega

theorem sumTotal_bumpSolved (m : SectionMap) (j : String) :
    sumTotal (bumpSolved m j) = sumTotal m := by
  induction m with
  | nil => simp [bumpSolved, sumTotal]
  | cons kv rest ih =>
    by_cases h : kv.1 = j <;> simp [bumpSolved, sumTotal, h] <;>
      simp [sumTotal] at ih <;> omega

theorem sumSolved_bumpTotal (m : SectionMap) (j : String) :
    sumSolved (bumpTotal m j) = sumSolved m := by
  induction m with
  | nil => simp [bumpTotal, sumSolved]
  | cons kv rest ih =>
    by_cases h : kv.1 = j <;> simp [bumpTotal, sumSolved, h] <;>
      simp [sumSolved] at ih <;> omega

theorem sumTotal_bumpTotal (m : SectionMap) (j : String) :
    sumTotal (bumpTotal m j) = sumTotal m + 1 := by
  induction m with
  | nil => simp [bumpTotal, sumTotal]
  | cons kv rest ih =>
    by_cases h : kv.1 = j <;> simp [bumpTotal, sumTotal, h] <;>
      simp [sumTotal] at ih <;> omega

theorem sumSolved_passSolved (l : List ProblemRecord) (m : SectionMap) :
    sumSolved (passSolved l m) = sumSolved m + l.length := by
  induction l generalizing m with
  | nil => simp [passSolved]
  | cons r l ih =>
    simp only [passSolved, List.foldl_cons] at ih ⊢
    rw [ih, sumSolved_bumpSolved]
    simp
    omega

theorem sumTotal_passSolved (l : List ProblemRecord) (m : SectionMap) :
    sumTotal (passSolved l m) = sumTotal m := by
  induction l generalizing m with
  | nil => simp [passSolved]
  | cons r l ih =>
    simp only [passSolved, List.foldl_cons] at ih ⊢
    rw [ih, sumTotal_bumpSolved]

theorem sumSolved_passTotal (l : List ProblemRecord) (m : SectionMap) :
    sumSolved (passTotal l m) = sumSolved m := by
  induction l generalizing m with
  | nil => simp [passTotal]
  | cons r l ih =>
    simp only [passTotal, List.foldl_cons] at ih ⊢
    rw [ih, sumSolved_bumpTotal]

theorem sumTotal_passTotal (l : List ProblemRecord) (m : SectionMap) :
    sumTotal (passTotal l m) = sumTotal m + l.length := by
  induction l generalizing m with
  | nil => simp [passTotal]
  | cons r l ih =>
    simp only [passTotal, List.foldl_cons] at ih ⊢
    rw [ih, sumTotal_bumpTotal]
    simp
    omega

theorem sumSolved_mkSections (ps : ProblemSet) :
    sumSolved (mkSections ps) = ps.solved.length := by
  unfold mkSections
  rw [sumSolved_passTotal, sumSolved_passSolved]
  simp [sumSolved]

theorem sumTotal_mkSections (ps : ProblemSet) :
    sumTotal (mkSections ps) = ps.solved.length + ps.unsolved.length := by
  unfold mkSections
  rw [sumTotal_passTotal, sumTotal_passSolved]
  simp [sumTotal]

/-! # Claim theorems -/

/-- Claim C1, counterexample: on a problem set with a single solved
record in section `"Intro"` and nothing unsolved, the code stores
`total = 1` for that section, while the two-pass update described by the
claim (solved pass bumping `solved` AND `total`, so a solved record
counts twice toward `total`) would store `total = 2`; the two section
maps differ. -/
theorem C1_counterexample :
    lookupSec (mkSections psOneSolved) "Intro" = some ⟨1, 1⟩ ∧
    lookupSec (mkSectionsSpecC1 psOneSolved) "Intro" = some ⟨1, 2⟩ ∧
    mkSections psOneSolved ≠ mkSectionsSpecC1 psOneSolved := by
  refine ⟨by decide, by decide, ?_⟩
  intro h
  have h1 : lookupSec (mkSections psOneSolved) "Intro" = some ⟨1, 1⟩ := by
    decide
  rw [h] at h1
  have h2 : lookupSec (mkSectionsSpecC1 psOneSolved) "Intro" =
      some ⟨1, 2⟩ := by decide
  rw [h1] at h2
  exact absurd h2 (by decide)

/-- Claim C1, amended: the first pass over `solved` increments only that
section's `solved` counter; the `total` counter is incremented solely by
the second pass over `solved` followed by `unsolved`, so a solved record
contributes exactly once (not twice) to its section's `total` — the
double-bump reading of the spec would instead give
`total = 2·(solved in section) + (unsolved in section)`. -/
theorem C1_main (ps : ProblemSet) (k : String) :
    solvedAt (mkSections ps) k = countSec ps.solved k ∧
    totalAt (mkSections ps) k =
      countSec ps.solved k + countSec ps.unsolved k ∧
    totalAt (mkSectionsSpecC1 ps) k =
      2 * countSec ps.solved k + countSec ps.unsolved k :=
  ⟨solvedAt_mkSections ps k, totalAt_mkSections ps k,
    totalAt_mkSectionsSpecC1 ps k⟩

/-- Claim C3: for every problem set and every section name `k`, the
aggregated `sections[k].solved` equals the number of records in
`solved` with section `k`, and `sections[k].total` equals the number of
records in `solved ++ unsolved` with section `k` (a key that never
occurs reads as 0/0, i.e. absent); concretely, Scenario 1
(`solved=[A,B]`, `unsolved=[C]`, all in `"Intro"`) yields
`solved_count = 2`, `total_count = 3` and
`sections = {"Intro": {solved: 2, total: 3}}`, and Scenario 3 (section
`"Graphs"` appearing only in `unsolved`) yields
`sections["Graphs"] = {solved: 0, total: 1}`. -/
theorem C3_main :
    (∀ (ps : ProblemSet) (k : String),
      solvedAt (mkSections ps) k = countSec ps.solved k ∧
      totalAt (mkSections ps) k = countSec (ps.solved ++ ps.unsolved) k) ∧
    (mkStats "alice" "t" "lu" psScenario1).solved_count = 2 ∧
    (mkStats "alice" "t" "lu" psScenario1).total_count = 3 ∧
    (mkStats "alice" "t" "lu" psScenario1).sections = [("Intro", ⟨2, 3⟩)] ∧
    lookupSec (mkSections psScenario3) "Graphs" = some ⟨0, 1⟩ := by
  refine ⟨fun ps k => ⟨solvedAt_mkSections ps k, ?_⟩, by decide, by decide,
    by decide, by decide⟩
  rw [totalAt_mkSections, countSec_append]

/-- Claim C4: for every aggregated `UserStats`,
`solved_count = len(solved)`, `total_count = len(solved) + len(unsolved)`,
the per-section `total` counters sum to `total_count`, the per-section
`solved` counters sum to `solved_count`, every section satisfies
`solved ≤ total`, and `solved_count ≤ total_count`. -/
theorem C4_main (u ts lu : String) (ps : ProblemSet) :
    (mkStats u ts lu ps).solved_count = ps.solved.length ∧
    (mkStats u ts lu ps).total_count =
      ps.solved.length + ps.unsolved.length ∧
    sumTotal (mkStats u ts lu ps).sections = (mkStats u ts lu ps).total_count ∧
    sumSolved (mkStats u ts lu ps).sections =
      (mkStats u ts lu ps).solved_count ∧
    (∀ (k : String) (v : SectionStats),
      lookupSec (mkStats u ts lu ps).sections k = some v →
      v.solved ≤ v.total) ∧
    (mkStats u ts lu ps).solved_count ≤ (mkStats u ts lu ps).total_count := by
  refine ⟨rfl, rfl, ?_, ?_, ?_, ?_⟩
  · simpa [mkStats] using sumTotal_mkSections ps
  · simpa [mkStats] using sumSolved_mkSections ps
  · intro k v h
    have hsect : (mkStats u ts lu ps).sections = mkSections ps := rfl
    rw [hsect] at h
    have hs : solvedAt (mkSections ps) k = v.solved := by
      simp [solvedAt, h]
    have ht : totalAt (mkSections ps) k = v.total := by
      simp [totalAt, h]
    rw [solvedAt_mkSections] at hs
    rw [totalAt_mkSections] at ht
    omega
  · simp [mkStats]

/-- Claim C4, witness: the invariants instantiated on Scenario 1
(`solved=[A,B]`, `unsolved=[C]`, one section), where the section entry
is `{solved: 2, total: 3}`. -/
theorem C4_witness :
    sumTotal (mkStats "alice" "t" "lu" psScenario1).sections =
      (mkStats "alice" "t" "lu" psScenario1).total_count ∧
    (⟨2, 3⟩ : SectionStats).solved ≤ (⟨2, 3⟩ : SectionStats).total :=
  ⟨(C4_main "alice" "t" "lu" psScenario1).2.2.1,
   (C4_main "alice" "t" "lu" psScenario1).2.2.2.2.1 "Intro" ⟨2, 3⟩
     (by decide)⟩

/-- Claim C8: a failure raised while processing one section (heading
read raises) or one problem entry (one of its DOM reads raises) skips
only that unit: the extraction result over the page with the failing
unit equals the result over the page with that unit removed, so every
remaining section and entry is still processed and its records still
appear. -/
theorem C8_main :
    (∀ (pre post : List SectionDom) (ents : List EntryDom) (msg : String),
      extractLoop (pre ++ ⟨.raised msg, ents⟩ :: post) =
        extractLoop (pre ++ post)) ∧
    (∀ (pre post : List SectionDom) (secName : String)
      (epre epost : List EntryDom) (msg : String),
      extractLoop
          (pre ++ ⟨.ok secName, epre ++ .raised msg :: epost⟩ :: post) =
        extractLoop (pre ++ ⟨.ok secName, epre ++ epost⟩ :: post)) := by
  constructor
  · intro pre post ents msg
    simp only [extractLoop, List.foldl_append, List.foldl_cons]
    rfl
  · intro pre post secName epre epost msg
    simp only [extractLoop, List.foldl_append, List.foldl_cons, sectionStep,
      List.foldl_append]
    rfl

/-- Claim C6: the login handshake is total — its outcome is a
`(flag, message)` pair on every execution — and the flag is `true`
exactly when no browser step raised and the post-submit page title no
longer contains `"Login"`; in that case the message is
`"Login successful"`, otherwise the pair is `(false, message)`. -/
theorem C6_main (w : LoginWorld) (u p : String) :
    ((login_to_cses w u p).1 = true ↔
      (w.navExn = none ∧ w.userFieldExn = none ∧ w.passFieldExn = none ∧
        w.submitExn = none ∧ strContains w.title "Login" = false)) ∧
    ((login_to_cses w u p).1 = true →
      login_to_cses w u p = (true, "Login successful")) := by
  rcases w with ⟨nav, uf, pf, sub, title⟩
  cases nav <;> cases uf <;> cases pf <;> cases sub <;>
    simp [login_to_cses] <;>
    by_cases h : strContains title "Login" <;> simp [h]

/-- Claim C6, witness: on a login page whose steps all succeed and whose
post-submit title is `"CSES Problem Set"`, the handshake returns
`(true, "Login successful")`. -/
theorem C6_witness :
    login_to_cses loginOkWorld "alice" "hunter2" =
      (true, "Login successful") :=
  (C6_main loginOkWorld "alice" "hunter2").2 (by decide)

/-! ## Pipeline path lemmas -/

theorem scrapeBody_sessionOpened (w : World) (n : Nat) :
    (scrapeBody w n).2.sessionOpened = w.setupExn.isNone := by
  unfold scrapeBody
  cases w.setupExn <;> (repeat' split) <;> simp_all [noEffects]

theorem finallyQuit_sessionOpened (r : (Nat × RouteBody) × Effects) :
    (finallyQuit r).2.sessionOpened = r.2.sessionOpened := by
  unfold finallyQuit
  by_cases h : r.2.sessionOpened <;> simp [h]

theorem finallyQuit_statsWritten (r : (Nat × RouteBody) × Effects) :
    (finallyQuit r).2.statsWritten = r.2.statsWritten := by
  unfold finallyQuit
  by_cases h : r.2.sessionOpened <;> simp [h]

theorem scrape_problem_data_okData_len (p : Page)
    (s u : List ProblemRecord)
    (h : scrape_problem_data p = .okData s u) :
    1 ≤ s.length + u.length := by
  unfold scrape_problem_data at h
  split at h
  · simp at h
  · simp only [] at h
    split at h
    · simp at h
    · rename_i hc
      injection h with h1 h2
      rw [Bool.and_eq_true, not_and_or] at hc
      subst h1
      subst h2
      rcases hc with hc | hc <;>
        rw [Bool.not_eq_true, List.isEmpty_eq_false_iff_exists_mem] at hc <;>
        rcases hc with ⟨x, hx⟩ <;>
        have := List.length_pos.mpr (List.ne_nil_of_mem hx) <;> omega

theorem scrapeBody_statsWritten (w : World) (n : Nat) (st : UserStats)
    (h : (scrapeBody w n).2.statsWritten = some st) :
    ∃ s u, scrape_problem_data w.page = .okData s u ∧
      st.total_count = s.length + u.length := by
  unfold scrapeBody at h
  repeat' split at h
  all_goals simp_all [noEffects]
  subst h
  exact ⟨_, _, ⟨rfl, rfl⟩, rfl⟩

/-- Claim C2, counterexample: with no credentials configured for user
index 1 (and a working browser launch), the route does return the 404
configuration error, but the browser session HAS been opened — the
driver is set up at `web_scaper.py:236`, before the credential check at
`web_scaper.py:244` — refuting "no browser session opened". -/
theorem C2_counterexample :
    (scrape wMissingCreds 1).1.1 = 404 ∧
    (scrape wMissingCreds 1).2.sessionOpened = true := by
  refine ⟨?_, ?_⟩ <;> rfl

/-- Claim C2, amended: for every scrape request whose user index has no
(or an empty) username or password configured, and whose browser launch
succeeds, the route returns the 404 configuration error immediately with
no directory created and no files written — but the browser session has
already been opened before the credential check, and is quit by the
`finally` block before the request returns. -/
theorem C2_main (w : World) (n : Nat) (hsetup : w.setupExn = none)
    (hcred : truthy (w.env (usernameKey n)) = false ∨
      truthy (w.env (passwordKey n)) = false) :
    (scrape w n).1 =
      (404, .errBody ("User " ++ toString n ++ " credentials not found")) ∧
    (scrape w n).2 = ⟨true, false, false, false, none, true⟩ := by
  have hcond : (!truthy (w.env (usernameKey n)) ||
      !truthy (w.env (passwordKey n))) = true := by
    rcases hcred with h | h <;> simp [h]
  have hb : scrapeBody w n =
      ((404, .errBody ("User " ++ toString n ++ " credentials not found")),
        ⟨true, false, false, false, none, false⟩) := by
    unfold scrapeBody
    rw [hsetup]
    simp [hcond]
  unfold scrape
  rw [hb]
  exact ⟨rfl, rfl⟩

/-- Claim C2, witness: the amended claim instantiated on a world whose
environment holds no credentials at all. -/
theorem C2_witness :
    (scrape wMissingCreds 1).1 =
      (404, .errBody ("User " ++ toString 1 ++ " credentials not found")) ∧
    (scrape wMissingCreds 1).2 = ⟨true, false, false, false, none, true⟩ :=
  C2_main wMissingCreds 1 rfl (Or.inl rfl)

/-- Claim C9: a browser session is opened exactly when `setup_driver()`
returns (so the driver variable is not `None`), and on every execution
path on which the session was opened — success, 404, 401, extraction
failure, or any raise caught by the `except` — the `finally` block quits
the driver before the request returns. -/
theorem C9_main (w : World) (n : Nat) :
    (scrape w n).2.sessionOpened = w.setupExn.isNone ∧
    ((scrape w n).2.sessionOpened = true →
      (scrape w n).2.driverQuit = true) := by
  constructor
  · show (finallyQuit (scrapeBody w n)).2.sessionOpened = _
    rw [finallyQuit_sessionOpened, scrapeBody_sessionOpened]
  · intro h
    rw [scrape, finallyQuit_sessionOpened] at h
    show (finallyQuit (scrapeBody w n)).2.driverQuit = true
    simp [finallyQuit, h]

/-- Claim C9, witness: on the missing-credentials path the session was
opened, and the driver is indeed quit. -/
theorem C9_witness : (scrape wMissingCreds 1).2.driverQuit = true :=
  (C9_main wMissingCreds 1).2 rfl

/-- Claim C7: when the extraction loop ends with both sequences empty on
a page that rendered, `scrape_problem_data` reports failure with the
"no problems found" message instead of succeeding with an empty result;
and whenever extraction reports failure on a request that reached it,
the route returns a 500 server-fault with that message and writes no
solved, unsolved or stats file. -/
theorem C7_main :
    (∀ p : Page, p.navExn = none → extractLoop p.taskLists = ([], []) →
      scrape_problem_data p = .fail "No problems found on the page") ∧
    (∀ (w : World) (n : Nat) (m : String), w.setupExn = none →
      truthy (w.env (usernameKey n)) = true →
      truthy (w.env (passwordKey n)) = true →
      w.mkdirExn = none →
      (login_to_cses w.login "" "").1 = true →
      scrape_problem_data w.page = .fail m →
      (scrape w n).1 = (500, .errBody m) ∧
      (scrape w n).2 = ⟨true, true, false, false, none, true⟩) := by
  constructor
  · intro p hnav hloop
    simp [scrape_problem_data, hnav, hloop]
  · intro w n m hsetup htu htp hmk hlogin hext
    have hlr : (login_to_cses w.login ((w.env (usernameKey n)).getD "")
        ((w.env (passwordKey n)).getD "")).1 = true := hlogin
    have hb : scrapeBody w n =
        ((500, .errBody m), ⟨true, true, false, false, none, false⟩) := by
      unfold scrapeBody
      rw [hsetup]
      simp [htu, htp, hmk, hlr, hext]
    unfold scrape
    rw [hb]
    exact ⟨rfl, rfl⟩

/-- Claim C7, witness: a rendered page with no task lists yields the
"no problems found" failure, and the route returns 500 having written
nothing. -/
theorem C7_witness :
    scrape_problem_data emptyPage = .fail "No problems found on the page" ∧
    (scrape wEmptyExtraction 1).1 =
      (500, .errBody "No problems found on the page") ∧
    (scrape wEmptyExtraction 1).2 =
      ⟨true, true, false, false, none, true⟩ := by
  refine ⟨C7_main.1 emptyPage rfl rfl, ?_⟩
  exact C7_main.2 wEmptyExtraction 1 "No problems found on the page"
    rfl (by decide) (by decide) rfl (by decide) (by decide)

/-- Claim C10: the leaderboard's progress division has no zero guard,
but (i) every stats artifact the scrape pipeline writes has
`total_count ≥ 1` (an extraction with zero records is rejected before
any file is written), so (ii) reading only such stats never hits the
zero division and the whole read succeeds, while (iii) a hand-written
stats file with `total_count = 0` makes the whole leaderboard read
fail. -/
theorem C10_main :
    (∀ (w : World) (n : Nat) (st : UserStats),
      (scrape w n).2.statsWritten = some st → 1 ≤ st.total_count) ∧
    (∀ ds : List DirEntry,
      (∀ d ∈ ds, d.isDir = true → ∀ st : UserStats,
        d.statsFile = some st → st.total_count ≠ 0) →
      ∃ es, readEntries ds = .ok es) ∧
    readEntries [zeroDir] = .error "division by zero" := by
  refine ⟨?_, ?_, rfl⟩
  · intro w n st h
    rw [scrape, finallyQuit_statsWritten] at h
    obtain ⟨s, u, hok, htc⟩ := scrapeBody_statsWritten w n st h
    rw [htc]
    exact scrape_problem_data_okData_len w.page s u hok
  · intro ds hall
    induction ds with
    | nil => exact ⟨[], rfl⟩
    | cons d ds ih =>
      obtain ⟨es, hes⟩ :=
        ih (fun d2 hd2 => hall d2 (List.mem_cons_of_mem _ hd2))
      by_cases hdir : d.isDir
      · cases hsf : d.statsFile with
        | none => exact ⟨es, by simp [readEntries, hdir, hsf, hes]⟩
        | some st =>
          have htc : st.total_count ≠ 0 :=
            hall d (List.mem_cons_self d ds) hdir st hsf
          exact ⟨⟨st, (st.solved_count : ℚ) / (st.total_count : ℚ) * 100⟩
              :: es,
            by simp [readEntries, hdir, hsf, htc, hes]⟩
      · exact ⟨es, by simp [readEntries, hdir, hes]⟩

/-- Claim C10, witness: the successful scrape of one problem writes
stats with `total_count = 1 ≥ 1`, and the three pipeline-written stores
of Scenario 4 (all with `total_count = 10`) are read without hitting the
division. -/
theorem C10_witness :
    1 ≤ (mkStats "alice" "20250101_000000" "2025-01-01 00:00:00"
      ⟨[⟨"Weird Algorithm", "https://cses.fi/problemset/task/1068",
        "Introductory Problems", true⟩], []⟩).total_count ∧
    ∃ es, readEntries ds599 = .ok es := by
  constructor
  · exact C10_main.1 wSuccess 1 _ (by decide)
  · refine C10_main.2.1 ds599 ?_
    intro d hd hdir st hst
    simp [ds599, dirOf, storedStats] at hd
    rcases hd with rfl | rfl | rfl <;>
      simp [dirOf, storedStats] at hst <;>
      rw [← hst] <;> decide

/-! ## Leaderboard sorting lemmas -/

theorem filter_orderedInsert_key (k : Nat) (a : LEntry) (l : List LEntry) :
    (List.orderedInsert lbLE a l).filter
        (fun e => e.stats.solved_count == k) =
      (a :: l).filter (fun e => e.stats.solved_count == k) := by
  induction l with
  | nil => rfl
  | cons b l ih =>
    by_cases hab : lbLE a b
    · rw [List.orderedInsert, if_pos hab]
    · rw [List.orderedInsert, if_neg hab]
      have hlt : a.stats.solved_count < b.stats.solved_count := by
        simp [lbLE] at hab
        omega
      by_cases hak : a.stats.solved_count = k
      · have hbk : ¬ b.stats.solved_count = k := by omega
        simp [List.filter_cons, hak, hbk, ih]
      · by_cases hbk : b.stats.solved_count = k <;>
          simp [List.filter_cons, hak, hbk, ih]

theorem filter_insertionSort_key (k : Nat) (l : List LEntry) :
    (List.insertionSort lbLE l).filter
        (fun e => e.stats.solved_count == k) =
      l.filter (fun e => e.stats.solved_count == k) := by
  induction l with
  | nil => rfl
  | cons a l ih =>
    rw [List.insertionSort, filter_orderedInsert_key]
    by_cases hak : a.stats.solved_count = k <;>
      simp [List.filter_cons, hak, ih]

theorem readEntries_progress (ds : List DirEntry) (es : List LEntry)
    (h : readEntries ds = .ok es) :
    ∀ e ∈ es, e.progress =
      (e.stats.solved_count : ℚ) / (e.stats.total_count : ℚ) * 100 := by
  induction ds generalizing es with
  | nil =>
    unfold readEntries at h
    injection h with h
    subst h
    intro e he
    cases he
  | cons d ds ih =>
    unfold readEntries at h
    split at h
    · split at h
      · exact ih es h
      · split at h
        · simp at h
        · split at h
          · injection h with h
            subst h
            intro e he
            rcases List.mem_cons.mp he with rfl | he2
            · rfl
            · rename_i es2 hok
              exact ih es2 hok e he2
          · simp at h
    · exact ih es h

/-- Claim C5: whenever the stored stats are all readable, the
leaderboard assigns each collected entry
`progress = solved_count / total_count * 100`, and returns the entries
sorted in descending order of `solved_count` by a stable sort: for every
key value, the entries with that `solved_count` appear in the output in
exactly their discovery order; concretely, stored counts 5, 9, 9 rank
the two 9s first in their original relative order, then the 5. -/
theorem C5_main (ds : List DirEntry) (es : List LEntry)
    (h : readEntries ds = .ok es) :
    leaderboard ds = .ok (List.insertionSort lbLE es) ∧
    List.Sorted lbLE (List.insertionSort lbLE es) ∧
    (∀ k : Nat, (List.insertionSort lbLE es).filter
        (fun e => e.stats.solved_count == k) =
      es.filter (fun e => e.stats.solved_count == k)) ∧
    (∀ e ∈ List.insertionSort lbLE es, e.progress =
      (e.stats.solved_count : ℚ) / (e.stats.total_count : ℚ) * 100) ∧
    leaderboard ds599 =
      .ok [lentryOf "u9a" 9 10, lentryOf "u9b" 9 10, lentryOf "u5" 5 10] := by
  refine ⟨by simp [leaderboard, h], List.sorted_insertionSort lbLE es,
    fun k => filter_insertionSort_key k es, ?_, ?_⟩
  · intro e he
    exact readEntries_progress ds es h e
      ((List.mem_insertionSort lbLE).mp he)
  · rfl

/-- Claim C5, witness: the Scenario 4 instance — stored counts 5, 9, 9
in discovery order come out as 9 (first-discovered), 9, 5. -/
theorem C5_witness :
    leaderboard ds599 =
      .ok [lentryOf "u9a" 9 10, lentryOf "u9b" 9 10, lentryOf "u5" 5 10] :=
  (C5_main ds599
    [lentryOf "u5" 5 10, lentryOf "u9a" 9 10, lentryOf "u9b" 9 10]
    rfl).2.2.2.2

end CsesScraper
